import Mathlib

/-!
Verification development for the Spotify extractor of the discord-player
repository (src/packages/extractor/src/extractors/SpotifyExtractor.ts).

The extractor is embedded shallowly: the URL pattern is embedded as an
executable matcher with the same backtracking behaviour as the source
regular expression, the external collaborators (primary API client,
fallback scraper, bridge provider, stream function) are oracles supplied
through environment records, and exception propagation is made explicit
with Except.
-/

namespace SpotifyX

/-- Entity kinds captured by capture group 3 of the source pattern
(album|playlist|track). -/
inductive SpotifyKind
  | album
  | playlist
  | track
deriving DecidableEq, Repr

/-- The character class [A-Za-z0-9] of the source pattern. -/
def isRegexAlnum (c : Char) : Bool := c.isAlpha || c.isDigit

/-- The character class ([a-z]|[A-Z]) used for the locale infix. -/
def isLocaleLetter (c : Char) : Bool := c.isAlpha

/-- Line terminators, which the dot of a JavaScript pattern does not match. -/
def isLineTerm (c : Char) : Bool :=
  c == '\n' || c == '\r' || c == '\u2028' || c == '\u2029'

/-- Matches a literal character sequence and yields the remainder. -/
def dropLit : List Char → List Char → Option (List Char)
  | [], s => some s
  | _ :: _, [] => none
  | c :: cs, d :: ds => if c == d then dropLit cs ds else none

/-- The suffix (?:[/:])([A-Za-z0-9]+).*$ of the source pattern: one
separator, a nonempty greedy alphanumeric id, then any characters other
than line terminators up to, and anchored at, the end of input. -/
def sepAndId (k : SpotifyKind) : List Char → Option (SpotifyKind × String)
  | [] => none
  | c :: r =>
    if c == '/' || c == ':' then
      let run := r.takeWhile isRegexAlnum
      if run.isEmpty then none
      else if (r.dropWhile isRegexAlnum).any isLineTerm then none
      else some (k, String.mk run)
    else none

/-- One alternative of (album|playlist|track) followed by the id suffix. -/
def tryKind (lit : String) (k : SpotifyKind) (s : List Char) :
    Option (SpotifyKind × String) :=
  match dropLit lit.toList s with
  | some r => sepAndId k r
  | none => none

/-- The alternation (album|playlist|track)(?:[/:])([A-Za-z0-9]+).*$, tried
left to right as the regex engine does. -/
def matchTail (s : List Char) : Option (SpotifyKind × String) :=
  match tryKind "album" .album s with
  | some v => some v
  | none =>
    match tryKind "playlist" .playlist s with
    | some v => some v
    | none => tryKind "track" .track s

/-- The group (?:user\/[A-Za-z0-9]+\/): literal user/, a nonempty greedy
alphanumeric name, then a slash.  The greedy name run cannot be shrunk by
backtracking because an alphanumeric character can never equal the slash
required next, so the deterministic maximal run is faithful. -/
def matchUser (s : List Char) : Option (List Char) :=
  match dropLit "user/".toList s with
  | none => none
  | some r =>
    let run := r.takeWhile isRegexAlnum
    if run.isEmpty then none
    else
      match r.drop run.length with
      | c :: r2 => if c == '/' then some r2 else none
      | [] => none

/-- The group (intl-([a-z]|[A-Z]){0,3}\/): literal intl-, up to three
letters taken greedily, then a slash.  Shrinking the letter count during
backtracking always places a letter where the slash is required, so the
deterministic form below is faithful. -/
def matchLocale (s : List Char) : Option (List Char) :=
  match dropLit "intl-".toList s with
  | none => none
  | some r =>
    let n := min (r.takeWhile isLocaleLetter).length 3
    match r.drop n with
    | c :: r2 => if c == '/' then some r2 else none
    | [] => none

/-- After the optional locale group: optional user group, then the kind
and id tail.  If the tail fails after a successful user group the engine
backtracks and retries with the group skipped. -/
def afterLocale (s : List Char) : Option (SpotifyKind × String) :=
  match matchUser s with
  | some r =>
    match matchTail r with
    | some v => some v
    | none => matchTail s
  | none => matchTail s

/-- After the https base: optional locale group with backtracking to the
skipped-group alternative, then the rest. -/
def afterBase (s : List Char) : Option (SpotifyKind × String) :=
  match matchLocale s with
  | some r =>
    match afterLocale r with
    | some v => some v
    | none => afterLocale s
  | none => afterLocale s

/-- The whole source pattern, anchored at the start: the https alternative
with its optional groups, or the spotify: scheme alternative. -/
def parseList (s : List Char) : Option (SpotifyKind × String) :=
  match dropLit "https://open.spotify.com/".toList s with
  | some r =>
    match afterBase r with
    | some v => some v
    | none =>
      match dropLit "spotify:".toList s with
      | some r2 => matchTail r2
      | none => none
  | none =>
    match dropLit "spotify:".toList s with
    | some r2 => matchTail r2
    | none => none

/-- SpotifyExtractor.parse: exec the pattern and read capture groups 3
and 4; none plays the role of both captures being undefined. -/
def parse (q : String) : Option (SpotifyKind × String) := parseList q.toList

/-! ## The documented grammar, stated from the words of the spec

The following definitions do not embed the source; they state the grammar
documented in sections 4.1 and 6 of the spec (plain form, two letter
locale infix form, user scoped form, scheme form), to be compared with
the implemented pattern. -/

/-- A documented id: nonempty, alphanumeric, extending to the end. -/
def specIdOk (r : List Char) : Bool := !r.isEmpty && r.all isRegexAlnum

/-- The documented kind/id tail with a fixed separator and no trailing
characters after the id. -/
def specTailWith (sep : Char) (s : List Char) : Option (SpotifyKind × String) :=
  match dropLit ("album".toList ++ [sep]) s with
  | some r => if specIdOk r then some (.album, String.mk r) else none
  | none =>
    match dropLit ("playlist".toList ++ [sep]) s with
    | some r => if specIdOk r then some (.playlist, String.mk r) else none
    | none =>
      match dropLit ("track".toList ++ [sep]) s with
      | some r => if specIdOk r then some (.track, String.mk r) else none
      | none => none

/-- The documented locale infix: intl- followed by exactly two letters
and a slash. -/
def specStripLocale (s : List Char) : Option (List Char) :=
  match s with
  | 'i' :: 'n' :: 't' :: 'l' :: '-' :: a :: b :: '/' :: r =>
    if a.isAlpha && b.isAlpha then some r else none
  | _ => none

/-- The documented user scope: user/ followed by a nonempty alphanumeric
name and a slash. -/
def specStripUser (s : List Char) : Option (List Char) :=
  match dropLit "user/".toList s with
  | none => none
  | some r =>
    let run := r.takeWhile isRegexAlnum
    if run.isEmpty then none
    else
      match r.drop run.length with
      | '/' :: r2 => some r2
      | _ => none

/-- The documented grammar of the spec, sections 4.1 and 6: the plain,
locale prefixed and user scoped https forms with a slash separator, and
the scheme form with a colon separator. -/
def specMatchList (s : List Char) : Option (SpotifyKind × String) :=
  match dropLit "https://open.spotify.com/".toList s with
  | some r =>
    match specTailWith '/' r with
    | some v => some v
    | none =>
      match specStripLocale r with
      | some r2 => specTailWith '/' r2
      | none =>
        match specStripUser r with
        | some r2 => specTailWith '/' r2
        | none => none
  | none =>
    match dropLit "spotify:".toList s with
    | some r => specTailWith ':' r
    | none => none

/-- The documented grammar on strings. -/
def specMatch (q : String) : Option (SpotifyKind × String) := specMatchList q.toList

/-! ## Data model -/

/-- Modelled from the spec: the query type tags of the player library
(the library itself is not among the extracted sources).  The six tags
the extractor names are included, plus representative tags that reach the
default branch of handle. -/
inductive QueryType
  | auto
  | autoSearch
  | spotifySong
  | spotifyAlbum
  | spotifyPlaylist
  | spotifySearch
  | youtubeVideo
  | arbitrary
deriving DecidableEq, BEq, Repr

/-- A track item as returned by the primary client (SpotifyAPI), both in
search results and inside playlist and album payloads: the fields the
extractor reads at lines 80-107 and 164-190 of the source. -/
structure ApiTrackData where
  title : String
  artist : Option String
  url : String
  thumbnail : Option String
  duration : Option Int
deriving DecidableEq, Repr

/-- A song payload of the fallback scraper as consumed by the
SPOTIFY_SONG branch. -/
structure SpotifySongData where
  title : String
  name : String
  artists : List String
  id : Option String
  coverArt : Option (List String)
  duration : Option Int
  maxDuration : Option Int
deriving DecidableEq, Repr

/-- A playlist or album payload of the primary client as consumed by the
structured branches. -/
structure PrimaryCollectionData where
  name : Option String
  thumbnail : Option String
  author : Option String
  tracks : List ApiTrackData
  id : String
  url : Option String
deriving DecidableEq, Repr

/-- One entry of the trackList of a fallback scraper payload. -/
structure FallbackTrackData where
  title : Option String
  subtitle : Option String
  uid : Option String
  duration : Int
deriving DecidableEq, Repr

/-- A playlist or album payload of the fallback scraper; both fallback
branches of the source consume exactly this shape. -/
structure FallbackCollectionData where
  name : Option String
  title : Option String
  coverArt : Option (List String)
  ctype : String
  subtitle : Option String
  trackList : List FallbackTrackData
  id : Option String
deriving DecidableEq, Repr

/-- The opaque provider payload captured into metadata.source. -/
inductive SourcePayload
  | api (d : ApiTrackData)
  | song (d : SpotifySongData)
  | fallback (d : FallbackTrackData)
deriving DecidableEq, Repr

/-- Opaque resolved bridge metadata (the data of a bridge provider
resolution, or the payload of pullYTMetadata); only its url field is read
by the source. -/
structure BridgeMeta where
  url : Option String
  tag : String
deriving DecidableEq, Repr

/-- The metadata envelope of a Track. -/
structure TrackMetadata where
  source : SourcePayload
  bridge : Option BridgeMeta
deriving DecidableEq, Repr

/-- Modelled from the spec: the canonical Track record of section 3 (the
Track class of the player library is not among the extracted sources;
its constructor stores the given fields and raw keeps the given url).
The back reference to the owning playlist is kept as the id of that
playlist, the weak link of section 9 of the spec; reqMeta is the deferred
metadata resolver, taking the bridge value the configured strategy would
deliver. -/
structure Track where
  title : String
  description : String
  author : String
  url : String
  thumbnail : String
  duration : String
  views : Nat
  requestedBy : Option String
  source : String
  queryType : QueryType
  metadata : TrackMetadata
  reqMeta : Option BridgeMeta → TrackMetadata
  playlistRef : Option (Option String)
  rawUrl : String

/-- Modelled from the spec: the canonical Playlist record of section 3. -/
structure Playlist where
  title : Option String
  description : String
  thumbnail : String
  ptype : String
  source : String
  authorName : String
  tracks : List Track
  id : Option String
  url : String

/-- The resolution result {playlist, tracks} of handle. -/
structure ExtractorInfo where
  playlist : Option Playlist
  tracks : List Track

/-- The context given to handle: the query type and the requester. -/
structure ExtractorSearchContext where
  qtype : Option QueryType
  requestedBy : Option String

/-- The extractor options that decide activation (lines 29-49). -/
structure SpotifyExtractorInit where
  hasBridgeProvider : Bool
  hasCreateStream : Bool
deriving DecidableEq, Repr

/-- Which private slots activate assigned: _stream, _isYtdl, _lib. -/
structure ExtractorState where
  streamSet : Bool
  isYtdl : Bool
  libSet : Bool
deriving DecidableEq, Repr

/-- SpotifyExtractor.activate: with a bridge provider it returns at once
and assigns nothing; with createStream it assigns only _stream; otherwise
it assigns _stream, _isYtdl and _lib. -/
def activate (init : SpotifyExtractorInit) : ExtractorState :=
  if init.hasBridgeProvider then ⟨false, false, false⟩
  else if init.hasCreateStream then ⟨true, false, false⟩
  else ⟨true, true, true⟩

/-- The state after activating with neither bridgeProvider nor
createStream. -/
def defaultState : ExtractorState := activate ⟨false, false⟩

/-- The one exception handle can propagate: reading getData off the
unassigned _lib slot. -/
inductive JsError
  | typeErrorUndefinedLib
deriving DecidableEq, Repr

/-- JavaScript || on a possibly absent string: an absent or empty string
selects the default. -/
def jsOr (o : Option String) (d : String) : String :=
  match o with
  | none => d
  | some s => if s == "" then d else s

/-- JavaScript template interpolation of a possibly absent string. -/
def jsInterp : Option String → String
  | none => "undefined"
  | some s => s

/-- JavaScript truthiness of a possibly absent string. -/
def jsTruthy : Option String → Bool
  | none => false
  | some s => !(s == "")

/-- The fixed placeholder thumbnail of the source. -/
def placeholderThumb : String := "https://www.scdn.co/i/_global/twitter_card-default.jpg"

/-- The fixed author sentinel of the source. -/
def unknownArtist : String := "Unknown Artist"

/-- Modelled from the spec: Util.parseMS of the player library is not
among the extracted sources; section 4.4 describes the conversion as
pure and total with negative values clamped to zero.  Yields days,
hours, minutes and seconds. -/
def parseMS (ms : Int) : Nat × Nat × Nat × Nat :=
  let t := ms.toNat
  (t / 86400000, t / 3600000 % 24, t / 60000 % 60, t / 1000 % 60)

/-- Two digit zero padding. -/
def pad2 (n : Nat) : String := if n < 10 then "0" ++ toString n else toString n

/-- Modelled from the spec: Util.buildTimeCode of the player library is
not among the extracted sources; section 8 describes a zero padded
timecode omitting leading zero units. -/
def buildTimeCode : Nat × Nat × Nat × Nat → String
  | (d, h, m, s) =>
    if d ≠ 0 then toString d ++ ":" ++ pad2 h ++ ":" ++ pad2 m ++ ":" ++ pad2 s
    else if h ≠ 0 then pad2 h ++ ":" ++ pad2 m ++ ":" ++ pad2 s
    else pad2 m ++ ":" ++ pad2 s

/-- The composite duration conversion the source applies. -/
def timecodeOfMs (ms : Int) : String := buildTimeCode (parseMS ms)

/-! ## Track and playlist normalization (the Track constructions of
handle, lines 80-107, 113-138, 164-190, 213-240, 269-295, 318-345) -/

/-- Normalization of a primary client track item (identical at the search
site, lines 80-107, and the structured collection site, lines 164-190,
apart from the playlist back reference). -/
def mkApiTrack (rb : Option String) (plRef : Option (Option String)) (d : ApiTrackData) : Track :=
  { title := d.title
    description := d.title ++ " by " ++ jsInterp d.artist
    author := d.artist.getD unknownArtist
    url := d.url
    thumbnail := jsOr d.thumbnail placeholderThumb
    duration := timecodeOfMs (d.duration.getD 0)
    views := 0
    requestedBy := rb
    source := "spotify"
    queryType := .spotifySong
    metadata := { source := .api d, bridge := none }
    reqMeta := fun b => { source := .api d, bridge := b }
    playlistRef := plRef
    rawUrl := d.url }

/-- Normalization of a fallback song payload (lines 113-138). -/
def mkSongTrack (rb : Option String) (query : String) (d : SpotifySongData) : Track :=
  let url := if jsTruthy d.id then "https://open.spotify.com/track/" ++ d.id.getD "" else query
  { title := d.title
    description := d.name ++ " by " ++ String.intercalate ", " d.artists
    author := (d.artists.head?).getD unknownArtist
    url := url
    thumbnail := jsOr (d.coverArt.bind List.head?) placeholderThumb
    duration := timecodeOfMs ((d.duration.orElse fun _ => d.maxDuration).getD 0)
    views := 0
    requestedBy := rb
    source := "spotify"
    queryType := .spotifySong
    metadata := { source := .song d, bridge := none }
    reqMeta := fun b => { source := .song d, bridge := b }
    playlistRef := none
    rawUrl := url }

/-- Normalization of one fallback trackList entry (lines 213-240 and,
identically, 318-345); plKey is the id of the owning playlist. -/
def mkFallbackTrack (rb : Option String) (query : String) (plKey : Option String)
    (m : FallbackTrackData) : Track :=
  let url := if jsTruthy m.uid then "https://open.spotify.com/tracks/" ++ m.uid.getD "" else query
  { title := m.title.getD ""
    description := m.title.getD ""
    author := m.subtitle.getD unknownArtist
    url := url
    thumbnail := placeholderThumb
    duration := timecodeOfMs m.duration
    views := 0
    requestedBy := rb
    source := "spotify"
    queryType := .spotifySong
    metadata := { source := .fallback m, bridge := none }
    reqMeta := fun b => { source := .fallback m, bridge := b }
    playlistRef := some plKey
    rawUrl := url }

/-- The Playlist built from a primary collection payload (lines 148-190
for playlists, 253-295 for albums, which differ only in the type tag). -/
def buildPrimaryPlaylistRec (rb : Option String) (ptype : String) (query : String)
    (pl : PrimaryCollectionData) : Playlist :=
  { title := pl.name
    description := pl.name.getD ""
    thumbnail := pl.thumbnail.getD placeholderThumb
    ptype := ptype
    source := "spotify"
    authorName := pl.author.getD unknownArtist
    tracks := pl.tracks.map (mkApiTrack rb (some (some pl.id)))
    id := some pl.id
    url := jsOr pl.url query }

/-- The {playlist, tracks: playlist.tracks} result of a successful
primary collection lookup. -/
def buildPrimaryInfo (rb : Option String) (ptype : String) (query : String)
    (pl : PrimaryCollectionData) : ExtractorInfo :=
  let p := buildPrimaryPlaylistRec rb ptype query pl
  ⟨some p, p.tracks⟩

/-- The Playlist built from a fallback collection payload (lines 197-240
for playlists and, identically, 302-345 for albums: even the constructed
url names playlist in both). -/
def buildFallbackPlaylistRec (rb : Option String) (query : String)
    (fp : FallbackCollectionData) : Playlist :=
  { title := fp.name.orElse fun _ => fp.title
    description := fp.title.getD ""
    thumbnail := (fp.coverArt.bind List.head?).getD placeholderThumb
    ptype := fp.ctype
    source := "spotify"
    authorName := fp.subtitle.getD unknownArtist
    tracks := fp.trackList.map (mkFallbackTrack rb query fp.id)
    id := fp.id
    url := if jsTruthy fp.id then "https://open.spotify.com/playlist/" ++ fp.id.getD "" else query }

/-- The {playlist, tracks: playlist.tracks} result of a successful
fallback collection lookup. -/
def buildFallbackInfo (rb : Option String) (query : String)
    (fp : FallbackCollectionData) : ExtractorInfo :=
  let p := buildFallbackPlaylistRec rb query fp
  ⟨some p, p.tracks⟩

/-! ## The resolution orchestrator -/

/-- The external collaborators of handle as oracles.  Per section 4.2 of
the spec the primary client surfaces transport and auth failures as
empty results for search; the structured lookups may additionally throw,
which the source catches.  The scraper calls are wrapped in catch(noop)
by the source, so an absent result covers both a miss and a rejection. -/
structure Env where
  search : String → Option (List ApiTrackData)
  getPlaylistP : String → Except Unit (Option PrimaryCollectionData)
  getAlbumP : String → Except Unit (Option PrimaryCollectionData)
  getDataSong : String → Option SpotifySongData
  getDataPlaylist : String → Option FallbackCollectionData
  getDataAlbum : String → Option FallbackCollectionData

/-- The try block of a structured branch: parse, check the kind, look up;
every failure inside the block (wrong or missing kind, a thrown lookup, a
falsy payload) is caught by the catch block uniformly, hence none. -/
def primaryCollection (lookup : String → Except Unit (Option PrimaryCollectionData))
    (want : SpotifyKind) (query : String) : Option PrimaryCollectionData :=
  match parse query with
  | some (k, id) =>
    if k == want then
      match lookup id with
      | .ok (some pl) => some pl
      | _ => none
    else none
  | none => none

/-- A structured branch of handle (SPOTIFY_PLAYLIST lines 140-243,
SPOTIFY_ALBUM lines 245-348): primary lookup, then the fallback scraper
on the original query; reading getData off an unassigned _lib inside the
catch block escapes as a TypeError. -/
def handleCollection (st : ExtractorState)
    (lookup : String → Except Unit (Option PrimaryCollectionData)) (want : SpotifyKind)
    (ptype : String) (getD : String → Option FallbackCollectionData)
    (rb : Option String) (query : String) : Except JsError ExtractorInfo :=
  match primaryCollection lookup want query with
  | some pl => .ok (buildPrimaryInfo rb ptype query pl)
  | none =>
    if st.libSet then
      match getD query with
      | none => .ok ⟨none, []⟩
      | some fp => .ok (buildFallbackInfo rb query fp)
    else .error .typeErrorUndefinedLib

/-- SpotifyExtractor.handle (lines 70-353), with exception propagation
explicit. -/
def handle (st : ExtractorState) (env : Env) (query : String)
    (ctx : ExtractorSearchContext) : Except JsError ExtractorInfo :=
  match ctx.qtype with
  | some .auto | some .autoSearch | some .spotifySearch =>
    match env.search query with
    | none => .ok ⟨none, []⟩
    | some data => .ok ⟨none, data.map (mkApiTrack ctx.requestedBy none)⟩
  | some .spotifySong =>
    if st.libSet then
      match env.getDataSong query with
      | none => .ok ⟨none, []⟩
      | some d => .ok ⟨none, [mkSongTrack ctx.requestedBy query d]⟩
    else .error .typeErrorUndefinedLib
  | some .spotifyPlaylist =>
    handleCollection st env.getPlaylistP .playlist "playlist" env.getDataPlaylist
      ctx.requestedBy query
  | some .spotifyAlbum =>
    handleCollection st env.getAlbumP .album "album" env.getDataAlbum
      ctx.requestedBy query
  | _ => .ok ⟨none, []⟩

/-- SpotifyExtractor.validate (lines 51-61). -/
def validate (_query : String) (type : Option QueryType) : Bool :=
  [QueryType.spotifyAlbum, QueryType.spotifyPlaylist, QueryType.spotifySong,
   QueryType.spotifySearch, QueryType.auto, QueryType.autoSearch].any
    (fun t => some t == type)

/-! ## Streaming -/

/-- The three explicit errors of stream (lines 360, 371, 386). -/
inductive StreamErr
  | failedToBridge
  | streamingApiNotInitialized
  | failedYtdlResources
deriving DecidableEq, Repr

/-- A playable handle: a direct url or an opened byte stream. -/
inductive StreamHandle
  | url (s : String)
  | readable (tag : Nat)
deriving DecidableEq, Repr

/-- The collaborators of stream as oracles: bridge provider resolution
(an absent outer value is a falsy resolution; the inner value is the
data slot stored into the bridge), the bridge provider stream, the
youtube url validator, pullYTMetadata and the _stream function. -/
structure StreamEnv where
  bridgeResolve : Track → Option (Option BridgeMeta)
  bridgeStream : Option BridgeMeta → StreamHandle
  validateYtURL : String → Bool
  pullYT : Track → Option BridgeMeta
  streamFn : String → StreamHandle

/-- SpotifyExtractor.stream (lines 355-392); the returned Track is the
final state of the mutated argument. -/
def stream (cfg : SpotifyExtractorInit) (st : ExtractorState) (senv : StreamEnv)
    (info : Track) : Except StreamErr StreamHandle × Track :=
  if cfg.hasBridgeProvider then
    match senv.bridgeResolve info with
    | none => (.error .failedToBridge, info)
    | some d =>
      let info2 := { info with metadata := { info.metadata with bridge := d } }
      (.ok (senv.bridgeStream d), info2)
  else if !st.streamSet then (.error .streamingApiNotInitialized, info)
  else if st.isYtdl then
    if senv.validateYtURL info.rawUrl then (.ok (senv.streamFn info.rawUrl), info)
    else
      match senv.pullYT info with
      | none => (.error .failedYtdlResources, info)
      | some meta =>
        let info2 := { info with metadata := { info.metadata with bridge := some meta } }
        match meta.url with
        | none => (.error .failedYtdlResources, info2)
        | some u =>
          if u == "" then (.error .failedYtdlResources, info2)
          else (.ok (senv.streamFn u), { info2 with rawUrl := u })
  else (.ok (senv.streamFn info.url), info)

/-! ## List helpers -/

theorem dropLit_self_append (l r : List Char) : dropLit l (l ++ r) = some r := by
  induction l with
  | nil => rfl
  | cons c cs ih => simp [dropLit, ih]

theorem takeWhile_all_eq {p : Char → Bool} {l : List Char} (h : l.all p = true) :
    l.takeWhile p = l := by
  induction l with
  | nil => rfl
  | cons a as ih =>
    simp only [List.all_cons, Bool.and_eq_true] at h
    simp [List.takeWhile_cons, h.1, ih h.2]

theorem dropWhile_all_eq {p : Char → Bool} {l : List Char} (h : l.all p = true) :
    l.dropWhile p = [] := by
  induction l with
  | nil => rfl
  | cons a as ih =>
    simp only [List.all_cons, Bool.and_eq_true] at h
    simp [List.dropWhile_cons, h.1, ih h.2]

theorem takeWhile_append_stop {p : Char → Bool} {l : List Char} {c : Char} (r : List Char)
    (h : l.all p = true) (hc : p c = false) : (l ++ c :: r).takeWhile p = l := by
  induction l with
  | nil => simp [List.takeWhile_cons, hc]
  | cons a as ih =>
    simp only [List.all_cons, Bool.and_eq_true] at h
    simp [List.takeWhile_cons, h.1, ih h.2]

/-! ## C10: validate -/

/-- C10: for all query strings q1 q2 and every query type, validation
agrees (the query is ignored), and it holds exactly for the six types
SPOTIFY_ALBUM, SPOTIFY_PLAYLIST, SPOTIFY_SONG, SPOTIFY_SEARCH, AUTO and
AUTO_SEARCH. -/
theorem validate_depends_only_on_type (q1 q2 : String) (ty : Option QueryType)
    (t : QueryType) :
    validate q1 ty = validate q2 ty ∧
      (validate q1 (some t) = true ↔
        (t = .spotifyAlbum ∨ t = .spotifyPlaylist ∨ t = .spotifySong ∨
         t = .spotifySearch ∨ t = .auto ∨ t = .autoSearch)) := by
  refine ⟨rfl, ?_⟩
  cases t <;> simp [validate] <;> decide

/-! ## C1: handle with an unconfigured scraper library -/

/-- An environment in which every collaborator yields nothing. -/
def envEmpty : Env :=
  ⟨fun _ => none, fun _ => .ok none, fun _ => .ok none,
   fun _ => none, fun _ => none, fun _ => none⟩

/-- C1: evaluating handle at the failing input.  When the extractor was
activated with a bridgeProvider (or a createStream function), activate
returns before assigning _lib, and a SPOTIFY_SONG resolution reads
getData off the undefined slot and rejects with a TypeError instead of
returning the empty structure. -/
theorem handle_bridge_config_song_throws :
    handle (activate ⟨true, false⟩) envEmpty "https://open.spotify.com/track/abc"
        ⟨some .spotifySong, none⟩ = .error .typeErrorUndefinedLib ∧
    handle (activate ⟨false, true⟩) envEmpty "https://open.spotify.com/track/abc"
        ⟨some .spotifySong, none⟩ = .error .typeErrorUndefinedLib :=
  ⟨rfl, rfl⟩

/-- Support: under the default activation the orchestrator is total, and
an empty environment yields the well formed empty structure for every
query type, as the spec demands. -/
theorem handle_default_never_throws (env : Env) (q : String)
    (ctx : ExtractorSearchContext) :
    ∃ info, handle defaultState env q ctx = .ok info := by
  unfold handle handleCollection
  rcases ctx with ⟨qt, rb⟩
  rcases qt with _ | t
  · exact ⟨_, rfl⟩
  cases t
  case auto =>
    cases h : env.search q <;> simp [h]
  case autoSearch =>
    cases h : env.search q <;> simp [h]
  case spotifySearch =>
    cases h : env.search q <;> simp [h]
  case spotifySong =>
    cases h : env.getDataSong q <;> simp [defaultState, activate, h]
  case spotifyPlaylist =>
    cases hpc : primaryCollection env.getPlaylistP .playlist q
    · cases hd : env.getDataPlaylist q <;>
        simp [hpc, hd, defaultState, activate]
    · simp [hpc]
  case spotifyAlbum =>
    cases hpc : primaryCollection env.getAlbumP .album q
    · cases hd : env.getDataAlbum q <;>
        simp [hpc, hd, defaultState, activate]
    · simp [hpc]
  case youtubeVideo => exact ⟨_, rfl⟩
  case arbitrary => exact ⟨_, rfl⟩

/-! ## C7: frame property of stream -/

/-- C7: a call to stream can change only the bridge slot of the metadata
envelope and the raw url slot; every other field of the Track, including
the captured metadata source, is returned unchanged on every path. -/
theorem stream_frame (cfg : SpotifyExtractorInit) (st : ExtractorState)
    (senv : StreamEnv) (info : Track) :
    ((stream cfg st senv info).2.title = info.title) ∧
    ((stream cfg st senv info).2.description = info.description) ∧
    ((stream cfg st senv info).2.author = info.author) ∧
    ((stream cfg st senv info).2.url = info.url) ∧
    ((stream cfg st senv info).2.thumbnail = info.thumbnail) ∧
    ((stream cfg st senv info).2.duration = info.duration) ∧
    ((stream cfg st senv info).2.views = info.views) ∧
    ((stream cfg st senv info).2.requestedBy = info.requestedBy) ∧
    ((stream cfg st senv info).2.source = info.source) ∧
    ((stream cfg st senv info).2.queryType = info.queryType) ∧
    ((stream cfg st senv info).2.metadata.source = info.metadata.source) ∧
    ((stream cfg st senv info).2.reqMeta = info.reqMeta) ∧
    ((stream cfg st senv info).2.playlistRef = info.playlistRef) := by
  unfold stream
  repeat' split
  all_goals exact ⟨rfl, rfl, rfl, rfl, rfl, rfl, rfl, rfl, rfl, rfl, rfl, rfl, rfl⟩

/-! ## C6: stream failure policy -/

/-- C6: when the configured bridge provider resolves to nothing, or when
the default bridging search yields no playable candidate, stream rejects
with an explicit error rather than returning an empty handle. -/
theorem stream_no_candidate_rejects (cfg : SpotifyExtractorInit) (st : ExtractorState)
    (senv : StreamEnv) (info : Track)
    (h : (cfg.hasBridgeProvider = true ∧ senv.bridgeResolve info = none) ∨
         (cfg.hasBridgeProvider = false ∧ st.streamSet = true ∧ st.isYtdl = true ∧
          senv.validateYtURL info.rawUrl = false ∧
          (senv.pullYT info = none ∨
            ∃ m, senv.pullYT info = some m ∧ jsTruthy m.url = false))) :
    ∃ e, (stream cfg st senv info).1 = Except.error e := by
  rcases h with ⟨hb, hr⟩ | ⟨hb, hs, hy, hv, hp⟩
  · refine ⟨.failedToBridge, ?_⟩
    simp [stream, hb, hr]
  · rcases hp with hp | ⟨m, hm, hu⟩
    · refine ⟨.failedYtdlResources, ?_⟩
      simp [stream, hb, hs, hy, hv, hp]
    · rcases m with ⟨murl, mtag⟩
      rcases murl with _ | u
      · refine ⟨.failedYtdlResources, ?_⟩
        simp [stream, hb, hs, hy, hv, hm]
      · have hu' : (u == "") = true := by
          simpa [jsTruthy] using hu
        refine ⟨.failedYtdlResources, ?_⟩
        simp [stream, hb, hs, hy, hv, hm, hu']

/-- A concrete track used to exercise the stream theorems. -/
def trackW : Track := mkApiTrack none none ⟨"T", some "A", "https://x", none, some 1000⟩

/-- A stream environment whose bridge resolution and bridging search both
yield nothing. -/
def senvW : StreamEnv :=
  ⟨fun _ => none, fun _ => .url "h", fun _ => false, fun _ => none, fun s => .url s⟩

/-- Witness for C6 at a concrete configuration, track and environment. -/
theorem stream_no_candidate_rejects_witness :
    ∃ e, (stream ⟨true, false⟩ (activate ⟨true, false⟩) senvW trackW).1 = Except.error e :=
  stream_no_candidate_rejects ⟨true, false⟩ (activate ⟨true, false⟩) senvW trackW
    (Or.inl ⟨rfl, rfl⟩)

/-! ## C4: normalization equivalence of the two payload shapes -/

/-- A primary shaped payload for the C4 comparison. -/
def c4Api : ApiTrackData := ⟨"T", some "A", "https://x", some "th", some 1000⟩

/-- A fallback shaped payload describing the same conceptual track. -/
def c4Fb : FallbackTrackData := ⟨some "T", some "A", some "uid1", 1000⟩

/-- C4 counterexample: the two payloads agree on title, author and
duration, yet the two normalization paths disagree on description,
thumbnail and url, so the records are not equal in every canonical field
besides the metadata source. -/
theorem normalization_equivalence_counterexample :
    c4Fb.title = some c4Api.title ∧ c4Fb.subtitle = c4Api.artist ∧
    c4Api.duration.getD 0 = c4Fb.duration ∧
    (mkApiTrack none none c4Api).description ≠ (mkFallbackTrack none "q" none c4Fb).description ∧
    (mkApiTrack none none c4Api).thumbnail ≠ (mkFallbackTrack none "q" none c4Fb).thumbnail ∧
    (mkApiTrack none none c4Api).url ≠ (mkFallbackTrack none "q" none c4Fb).url := by
  refine ⟨rfl, rfl, rfl, ?_, ?_, ?_⟩ <;> decide

/-- C4 (amended): for payloads describing the same conceptual track the
two normalization paths agree on title, author, duration, views, source
and query type; description, thumbnail and url may differ. -/
theorem normalization_equivalence_amended (rb : Option String) (pr : Option (Option String))
    (plKey : Option String) (q : String) (P : ApiTrackData) (F : FallbackTrackData)
    (ht : F.title = some P.title) (ha : F.subtitle = P.artist)
    (hd : P.duration.getD 0 = F.duration) :
    (mkApiTrack rb pr P).title = (mkFallbackTrack rb q plKey F).title ∧
    (mkApiTrack rb pr P).author = (mkFallbackTrack rb q plKey F).author ∧
    (mkApiTrack rb pr P).duration = (mkFallbackTrack rb q plKey F).duration ∧
    (mkApiTrack rb pr P).views = (mkFallbackTrack rb q plKey F).views ∧
    (mkApiTrack rb pr P).source = (mkFallbackTrack rb q plKey F).source ∧
    (mkApiTrack rb pr P).queryType = (mkFallbackTrack rb q plKey F).queryType := by
  refine ⟨?_, ?_, ?_, rfl, rfl, rfl⟩ <;>
    simp [mkApiTrack, mkFallbackTrack, ht, ← ha, ← hd]

/-- Witness for C4 (amended) at the concrete payload pair. -/
theorem normalization_equivalence_amended_witness :
    (mkApiTrack none none c4Api).title = (mkFallbackTrack none "q" none c4Fb).title ∧
    (mkApiTrack none none c4Api).author = (mkFallbackTrack none "q" none c4Fb).author ∧
    (mkApiTrack none none c4Api).duration = (mkFallbackTrack none "q" none c4Fb).duration ∧
    (mkApiTrack none none c4Api).views = (mkFallbackTrack none "q" none c4Fb).views ∧
    (mkApiTrack none none c4Api).source = (mkFallbackTrack none "q" none c4Fb).source ∧
    (mkApiTrack none none c4Api).queryType = (mkFallbackTrack none "q" none c4Fb).queryType :=
  normalization_equivalence_amended none none none "q" c4Api c4Fb rfl rfl rfl

/-! ## C8: defaults for missing fields -/

/-- C8: a missing artist normalizes to the Unknown Artist sentinel, a
missing thumbnail to the fixed placeholder (the fallback path always uses
the placeholder), a missing duration is formatted like zero, and the
formatter is a total function that clamps negative inputs to the zero
timecode. -/
theorem normalization_missing_defaults (rb : Option String) (pr : Option (Option String))
    (q : String) (plKey : Option String) (d : ApiTrackData) (m : FallbackTrackData)
    (ms : Int) (hart : d.artist = none) (hth : d.thumbnail = none)
    (hdur : d.duration = none) (hsub : m.subtitle = none) (hms : ms < 0) :
    (mkApiTrack rb pr d).author = unknownArtist ∧
    (mkApiTrack rb pr d).thumbnail = placeholderThumb ∧
    (mkApiTrack rb pr d).duration = timecodeOfMs 0 ∧
    (mkFallbackTrack rb q plKey m).author = unknownArtist ∧
    (mkFallbackTrack rb q plKey m).thumbnail = placeholderThumb ∧
    timecodeOfMs ms = timecodeOfMs 0 := by
  have hnat : ms.toNat = 0 := Int.toNat_of_nonpos (le_of_lt hms)
  refine ⟨?_, ?_, ?_, ?_, rfl, ?_⟩ <;>
    simp [mkApiTrack, mkFallbackTrack, hart, hth, hdur, hsub, jsOr,
      timecodeOfMs, parseMS, hnat]

/-- Witness for C8 at concrete payloads with the fields missing. -/
theorem normalization_missing_defaults_witness :
    (mkApiTrack none none ⟨"T", none, "u", none, none⟩).author = unknownArtist ∧
    (mkApiTrack none none ⟨"T", none, "u", none, none⟩).thumbnail = placeholderThumb ∧
    (mkApiTrack none none ⟨"T", none, "u", none, none⟩).duration = timecodeOfMs 0 ∧
    (mkFallbackTrack none "q" none ⟨some "X", none, none, 5⟩).author = unknownArtist ∧
    (mkFallbackTrack none "q" none ⟨some "X", none, none, 5⟩).thumbnail = placeholderThumb ∧
    timecodeOfMs (-3) = timecodeOfMs 0 :=
  normalization_missing_defaults none none "q" none ⟨"T", none, "u", none, none⟩
    ⟨some "X", none, none, 5⟩ (-3) rfl rfl rfl rfl (by decide)

/-! ## C2: fallback ordering for structured queries -/

/-- C2: whenever the primary structured lookup of a playlist or album
query fails (the query does not parse to the wanted kind, or the lookup
throws or yields a falsy payload), handle consults the fallback scraper
with the original, unmodified query string, returns its normalized
payload when present, and returns the empty structure only when the
scraper also yields nothing. -/
theorem fallback_ordering (env : Env) (q : String) (rb : Option String)
    (hP : primaryCollection env.getPlaylistP .playlist q = none)
    (hA : primaryCollection env.getAlbumP .album q = none) :
    (handle defaultState env q ⟨some .spotifyPlaylist, rb⟩ =
      match env.getDataPlaylist q with
      | none => .ok ⟨none, []⟩
      | some fp => .ok (buildFallbackInfo rb q fp)) ∧
    (handle defaultState env q ⟨some .spotifyAlbum, rb⟩ =
      match env.getDataAlbum q with
      | none => .ok ⟨none, []⟩
      | some fp => .ok (buildFallbackInfo rb q fp)) := by
  constructor <;> simp [handle, handleCollection, hP, hA, defaultState, activate]

/-- A primary client that always fails and a scraper that resolves
playlist queries with one well formed payload. -/
def envC2 : Env :=
  ⟨fun _ => none, fun _ => .ok none, fun _ => .error (), fun _ => none,
   fun _ => some ⟨some "P", some "Pt", none, "playlist", some "Au",
     [⟨some "S1", some "A1", some "u1", 1000⟩], some "pid"⟩,
   fun _ => none⟩

/-- Witness for C2: with the primary stub empty, a playlist query yields
the normalized fallback payload, and an album query, whose scraper stub
is empty, yields the empty structure. -/
theorem fallback_ordering_witness :
    handle defaultState envC2 "https://open.spotify.com/playlist/pid"
        ⟨some .spotifyPlaylist, none⟩ =
      .ok (buildFallbackInfo none "https://open.spotify.com/playlist/pid"
        ⟨some "P", some "Pt", none, "playlist", some "Au",
         [⟨some "S1", some "A1", some "u1", 1000⟩], some "pid"⟩) ∧
    handle defaultState envC2 "https://open.spotify.com/playlist/pid"
        ⟨some .spotifyAlbum, none⟩ = .ok ⟨none, []⟩ := by
  have h := fallback_ordering envC2 "https://open.spotify.com/playlist/pid" none rfl rfl
  exact ⟨h.1, h.2⟩

/-! ## C5: shape of a successful primary playlist resolution -/

/-- C5: a playlist query resolved through the primary client returns the
built playlist together with its own track list, the playlist id is the
payload id, the tracks are the normalized payload tracks in provider
order, and every track back references the returned playlist. -/
theorem primary_playlist_shape (env : Env) (q : String) (rb : Option String)
    (pid : String) (pl : PrimaryCollectionData)
    (hparse : parse q = some (.playlist, pid))
    (hlook : env.getPlaylistP pid = .ok (some pl)) :
    ∃ p : Playlist,
      handle defaultState env q ⟨some .spotifyPlaylist, rb⟩ = .ok ⟨some p, p.tracks⟩ ∧
      p.id = some pl.id ∧
      p.tracks = pl.tracks.map (mkApiTrack rb (some (some pl.id))) ∧
      p.tracks.length = pl.tracks.length ∧
      ∀ t ∈ p.tracks, t.playlistRef = some (some pl.id) := by
  refine ⟨buildPrimaryPlaylistRec rb "playlist" q pl, ?_, rfl, rfl, ?_, ?_⟩
  · simp [handle, handleCollection, primaryCollection, hparse, hlook,
      buildPrimaryInfo]
  · simp [buildPrimaryPlaylistRec]
  · intro t ht
    simp only [buildPrimaryPlaylistRec, List.mem_map] at ht
    rcases ht with ⟨d, _, rfl⟩
    rfl

/-- A primary client returning the two track playlist of the end to end
scenario of the spec. -/
def envC5 : Env :=
  ⟨fun _ => none,
   fun id => if id = "abc123" then
       .ok (some ⟨some "PL", some "th", some "Au",
         [⟨"S1", some "A1", "u1", none, some 1000⟩,
          ⟨"S2", some "A2", "u2", none, some 2000⟩], "abc123", some "purl"⟩)
     else .ok none,
   fun _ => .ok none, fun _ => none, fun _ => none, fun _ => none⟩

/-- Witness for C5 at the concrete scenario of the spec: a playlist url
with id abc123 and a primary payload of two songs. -/
theorem primary_playlist_shape_witness :
    ∃ p : Playlist,
      handle defaultState envC5 "https://open.spotify.com/playlist/abc123"
          ⟨some .spotifyPlaylist, none⟩ = .ok ⟨some p, p.tracks⟩ ∧
      p.id = some "abc123" ∧
      p.tracks = [⟨"S1", some "A1", "u1", none, some 1000⟩,
        ⟨"S2", some "A2", "u2", none, some 2000⟩].map
          (mkApiTrack none (some (some "abc123"))) ∧
      p.tracks.length = 2 ∧
      ∀ t ∈ p.tracks, t.playlistRef = some (some "abc123") :=
  primary_playlist_shape envC5 "https://open.spotify.com/playlist/abc123" none
    "abc123"
    ⟨some "PL", some "th", some "Au",
     [⟨"S1", some "A1", "u1", none, some 1000⟩,
      ⟨"S2", some "A2", "u2", none, some 2000⟩], "abc123", some "purl"⟩
    (by decide) rfl

/-! ## C9: creation state of the metadata envelope and stability of the
deferred resolver -/

/-- The invariant of every track handle creates: the bridge slot starts
empty and the deferred resolver always repacks the captured payload as
its source. -/
def GoodTrack (t : Track) : Prop :=
  t.metadata.bridge = none ∧ ∀ b, (t.reqMeta b).source = t.metadata.source

theorem goodTrack_mkApiTrack (rb : Option String) (pr : Option (Option String))
    (d : ApiTrackData) : GoodTrack (mkApiTrack rb pr d) :=
  ⟨rfl, fun _ => rfl⟩

theorem goodTrack_mkSongTrack (rb : Option String) (q : String)
    (d : SpotifySongData) : GoodTrack (mkSongTrack rb q d) :=
  ⟨rfl, fun _ => rfl⟩

theorem goodTrack_mkFallbackTrack (rb : Option String) (q : String)
    (plKey : Option String) (m : FallbackTrackData) :
    GoodTrack (mkFallbackTrack rb q plKey m) :=
  ⟨rfl, fun _ => rfl⟩

theorem handle_tracks_good (st : ExtractorState) (env : Env) (q : String)
    (ctx : ExtractorSearchContext) (info : ExtractorInfo) (t : Track)
    (h1 : handle st env q ctx = .ok info) (h2 : t ∈ info.tracks) : GoodTrack t := by
  rcases ctx with ⟨qt, rb⟩
  have searchCase : (match env.search q with
      | none => (.ok ⟨none, []⟩ : Except JsError ExtractorInfo)
      | some data => .ok ⟨none, data.map (mkApiTrack rb none)⟩) = .ok info →
      GoodTrack t := by
    intro h1
    cases hs : env.search q <;> simp only [hs] at h1
    · cases h1
      simp at h2
    · cases h1
      simp only [List.mem_map] at h2
      rcases h2 with ⟨d, _, rfl⟩
      exact goodTrack_mkApiTrack rb none d
  have collCase : ∀ lookup want ptype getD,
      handleCollection st lookup want ptype getD rb q = .ok info → GoodTrack t := by
    intro lookup want ptype getD h1
    unfold handleCollection at h1
    cases hpc : primaryCollection lookup want q <;> simp only [hpc] at h1
    · rcases hls : st.libSet <;> simp only [hls] at h1
      · cases h1
      · cases hd : getD q <;> simp only [hd] at h1
        · cases h1
          simp at h2
        · cases h1
          simp only [buildFallbackInfo, buildFallbackPlaylistRec, List.mem_map] at h2
          rcases h2 with ⟨m, _, rfl⟩
          exact goodTrack_mkFallbackTrack _ _ _ m
    · cases h1
      simp only [buildPrimaryInfo, buildPrimaryPlaylistRec, List.mem_map] at h2
      rcases h2 with ⟨d, _, rfl⟩
      exact goodTrack_mkApiTrack _ _ d
  rcases qt with _ | tq
  · simp only [handle] at h1
    cases h1
    simp at h2
  cases tq
  case auto => exact searchCase h1
  case autoSearch => exact searchCase h1
  case spotifySearch => exact searchCase h1
  case spotifySong =>
    simp only [handle] at h1
    rcases hls : st.libSet <;> simp only [hls] at h1
    · cases h1
    · cases hd : env.getDataSong q <;> simp only [hd] at h1
      · cases h1
        simp at h2
      · cases h1
        simp only [List.mem_singleton] at h2
        subst h2
        exact goodTrack_mkSongTrack rb q _
  case spotifyPlaylist => exact collCase env.getPlaylistP .playlist "playlist" env.getDataPlaylist h1
  case spotifyAlbum => exact collCase env.getAlbumP .album "album" env.getDataAlbum h1
  case youtubeVideo =>
    simp only [handle] at h1
    cases h1
    simp at h2
  case arbitrary =>
    simp only [handle] at h1
    cases h1
    simp at h2

/-- C9: every track produced by handle starts with an empty bridge slot,
and however the deferred metadata resolver is invoked, the returned
envelope carries exactly the provider payload captured at creation, so
repeated resolution never alters the captured source. -/
theorem track_creation_invariant (st : ExtractorState) (env : Env) (q : String)
    (ctx : ExtractorSearchContext) (info : ExtractorInfo) (t : Track)
    (b : Option BridgeMeta)
    (h1 : handle st env q ctx = .ok info) (h2 : t ∈ info.tracks) :
    t.metadata.bridge = none ∧ (t.reqMeta b).source = t.metadata.source := by
  have h := handle_tracks_good st env q ctx info t h1 h2
  exact ⟨h.1, h.2 b⟩

/-- An environment whose search yields one payload, for the C9 witness. -/
def envC9 : Env :=
  ⟨fun _ => some [⟨"S1", some "A1", "u1", none, some 1000⟩],
   fun _ => .ok none, fun _ => .ok none, fun _ => none, fun _ => none, fun _ => none⟩

/-- Witness for C9 at a concrete search resolution and a concrete
resolver invocation. -/
theorem track_creation_invariant_witness :
    (mkApiTrack none none ⟨"S1", some "A1", "u1", none, some 1000⟩).metadata.bridge = none ∧
    ((mkApiTrack none none ⟨"S1", some "A1", "u1", none, some 1000⟩).reqMeta
        (some ⟨some "yt", "meta"⟩)).source =
      (mkApiTrack none none ⟨"S1", some "A1", "u1", none, some 1000⟩).metadata.source :=
  track_creation_invariant defaultState envC9 "never gonna give"
    ⟨some .spotifySearch, none⟩
    ⟨none, [mkApiTrack none none ⟨"S1", some "A1", "u1", none, some 1000⟩]⟩
    (mkApiTrack none none ⟨"S1", some "A1", "u1", none, some 1000⟩)
    (some ⟨some "yt", "meta"⟩) rfl (List.mem_singleton.2 rfl)

/-! ## C3: the URL classifier -/

theorem sepAndId_ok (k : SpotifyKind) (sep : Char) (id : List Char)
    (hsep : sep = '/' ∨ sep = ':') (h1 : id ≠ []) (h2 : id.all isRegexAlnum = true) :
    sepAndId k (sep :: id) = some (k, String.mk id) := by
  have hrun : id.takeWhile isRegexAlnum = id := takeWhile_all_eq h2
  have hdrop : id.dropWhile isRegexAlnum = [] := dropWhile_all_eq h2
  have hne : id.isEmpty = false := by
    cases id
    · exact absurd rfl h1
    · rfl
  rcases hsep with h | h <;> subst h <;> simp [sepAndId, hrun, hdrop, hne]

theorem matchTail_album (sep : Char) (id : List Char) (hsep : sep = '/' ∨ sep = ':')
    (h1 : id ≠ []) (h2 : id.all isRegexAlnum = true) :
    matchTail ("album".toList ++ sep :: id) = some (.album, String.mk id) := by
  have hb : dropLit "album".toList ("album".toList ++ sep :: id) = some (sep :: id) := rfl
  have h := sepAndId_ok .album sep id hsep h1 h2
  simp only [matchTail, tryKind, hb, h]

theorem matchTail_playlist (sep : Char) (id : List Char) (hsep : sep = '/' ∨ sep = ':')
    (h1 : id ≠ []) (h2 : id.all isRegexAlnum = true) :
    matchTail ("playlist".toList ++ sep :: id) = some (.playlist, String.mk id) := by
  have h0 : dropLit "album".toList ("playlist".toList ++ sep :: id) = none := rfl
  have hb : dropLit "playlist".toList ("playlist".toList ++ sep :: id) = some (sep :: id) := rfl
  have h := sepAndId_ok .playlist sep id hsep h1 h2
  simp only [matchTail, tryKind, h0, hb, h]

theorem matchTail_track (sep : Char) (id : List Char) (hsep : sep = '/' ∨ sep = ':')
    (h1 : id ≠ []) (h2 : id.all isRegexAlnum = true) :
    matchTail ("track".toList ++ sep :: id) = some (.track, String.mk id) := by
  have h0 : dropLit "album".toList ("track".toList ++ sep :: id) = none := rfl
  have h0' : dropLit "playlist".toList ("track".toList ++ sep :: id) = none := rfl
  have hb : dropLit "track".toList ("track".toList ++ sep :: id) = some (sep :: id) := rfl
  have h := sepAndId_ok .track sep id hsep h1 h2
  simp only [matchTail, tryKind, h0, h0', hb, h]

theorem matchUser_ok (name rest : List Char) (h1 : name ≠ [])
    (h2 : name.all isRegexAlnum = true) :
    matchUser ("user/".toList ++ (name ++ '/' :: rest)) = some rest := by
  have hb : dropLit "user/".toList ("user/".toList ++ (name ++ '/' :: rest)) =
      some (name ++ '/' :: rest) := rfl
  have htw : (name ++ '/' :: rest).takeWhile isRegexAlnum = name :=
    takeWhile_append_stop rest h2 rfl
  have hne : name.isEmpty = false := by
    cases name
    · exact absurd rfl h1
    · rfl
  have hdr : (name ++ '/' :: rest).drop name.length = '/' :: rest :=
    List.drop_left _ _
  simp only [matchUser, hb, htw, hne, hdr, Bool.false_eq_true, if_false]
  rfl

theorem matchLocale_ok (loc rest : List Char) (hlen : loc.length = 2)
    (h2 : loc.all isLocaleLetter = true) :
    matchLocale ("intl-".toList ++ (loc ++ '/' :: rest)) = some rest := by
  have hb : dropLit "intl-".toList ("intl-".toList ++ (loc ++ '/' :: rest)) =
      some (loc ++ '/' :: rest) := rfl
  have htw : (loc ++ '/' :: rest).takeWhile isLocaleLetter = loc :=
    takeWhile_append_stop rest h2 rfl
  have hmin : min loc.length 3 = loc.length := by
    rw [hlen]
    decide
  have hdr : (loc ++ '/' :: rest).drop loc.length = '/' :: rest :=
    List.drop_left _ _
  simp only [matchLocale, hb, htw, hmin, hdr]
  rfl

theorem parseList_https_plain (tail : List Char) (v : SpotifyKind × String)
    (hloc : matchLocale tail = none) (huser : matchUser tail = none)
    (htail : matchTail tail = some v) :
    parseList ("https://open.spotify.com/".toList ++ tail) = some v := by
  have hb : dropLit "https://open.spotify.com/".toList
      ("https://open.spotify.com/".toList ++ tail) = some tail := rfl
  simp only [parseList, afterBase, afterLocale, hb, hloc, huser, htail]

theorem parseList_https_locale (loc rest : List Char) (v : SpotifyKind × String)
    (hlen : loc.length = 2) (hletters : loc.all isLocaleLetter = true)
    (huser : matchUser rest = none) (htail : matchTail rest = some v) :
    parseList ("https://open.spotify.com/".toList ++
      ("intl-".toList ++ (loc ++ '/' :: rest))) = some v := by
  have hb : dropLit "https://open.spotify.com/".toList
      ("https://open.spotify.com/".toList ++ ("intl-".toList ++ (loc ++ '/' :: rest))) =
      some ("intl-".toList ++ (loc ++ '/' :: rest)) := rfl
  have hloc := matchLocale_ok loc rest hlen hletters
  simp only [parseList, afterBase, afterLocale, hb, hloc, huser, htail]

theorem parseList_https_user (name rest : List Char) (v : SpotifyKind × String)
    (hn1 : name ≠ []) (hn2 : name.all isRegexAlnum = true)
    (htail : matchTail rest = some v) :
    parseList ("https://open.spotify.com/".toList ++
      ("user/".toList ++ (name ++ '/' :: rest))) = some v := by
  have hb : dropLit "https://open.spotify.com/".toList
      ("https://open.spotify.com/".toList ++ ("user/".toList ++ (name ++ '/' :: rest))) =
      some ("user/".toList ++ (name ++ '/' :: rest)) := rfl
  have huser := matchUser_ok name rest hn1 hn2
  have hloc : matchLocale ("user/".toList ++ (name ++ '/' :: rest)) = none := rfl
  simp only [parseList, afterBase, afterLocale, hb, hloc, huser, htail]

theorem parseList_scheme (tail : List Char) (v : SpotifyKind × String)
    (htail : matchTail tail = some v) :
    parseList ("spotify:".toList ++ tail) = some v := by
  have h0 : dropLit "https://open.spotify.com/".toList ("spotify:".toList ++ tail) =
      none := rfl
  have hb : dropLit "spotify:".toList ("spotify:".toList ++ tail) = some tail := rfl
  simp only [parseList, h0, hb, htail]

/-- C3 counterexample: a string outside every documented form (the https
form with a colon between kind and id) that the implemented pattern
nevertheless accepts, so parse does not return the none variant on every
string matching none of the documented forms. -/
theorem classify_counterexample :
    specMatch "https://open.spotify.com/track:abc" = none ∧
    parse "https://open.spotify.com/track:abc" = some (.track, "abc") := by
  exact ⟨by decide, by decide⟩

/-- C3 (amended): for every URL of the documented grammar, parse returns
the correct kind and id pair, for all three kinds, with and without the
two letter locale infix, the user scope, and in scheme form; however the
implemented pattern is strictly broader than the documented grammar (it
also accepts zero to three letter locale infixes, a colon separator in
the https form, trailing characters after the id, and the scheme form of
every kind), so a string outside the documented forms need not map to
the none variant; only strings the pattern itself rejects do. -/
theorem classify_documented_grammar (id loc name : List Char)
    (hid : id ≠ []) (hid2 : id.all isRegexAlnum = true)
    (hloc : loc.length = 2) (hloc2 : loc.all isLocaleLetter = true)
    (hnm : name ≠ []) (hnm2 : name.all isRegexAlnum = true) :
    parse (String.mk ("https://open.spotify.com/track/".toList ++ id)) =
      some (.track, String.mk id) ∧
    parse (String.mk ("https://open.spotify.com/playlist/".toList ++ id)) =
      some (.playlist, String.mk id) ∧
    parse (String.mk ("https://open.spotify.com/album/".toList ++ id)) =
      some (.album, String.mk id) ∧
    parse (String.mk ("https://open.spotify.com/intl-".toList ++
        (loc ++ ("/track/".toList ++ id)))) = some (.track, String.mk id) ∧
    parse (String.mk ("https://open.spotify.com/intl-".toList ++
        (loc ++ ("/playlist/".toList ++ id)))) = some (.playlist, String.mk id) ∧
    parse (String.mk ("https://open.spotify.com/intl-".toList ++
        (loc ++ ("/album/".toList ++ id)))) = some (.album, String.mk id) ∧
    parse (String.mk ("https://open.spotify.com/user/".toList ++
        (name ++ ("/track/".toList ++ id)))) = some (.track, String.mk id) ∧
    parse (String.mk ("https://open.spotify.com/user/".toList ++
        (name ++ ("/playlist/".toList ++ id)))) = some (.playlist, String.mk id) ∧
    parse (String.mk ("https://open.spotify.com/user/".toList ++
        (name ++ ("/album/".toList ++ id)))) = some (.album, String.mk id) ∧
    parse (String.mk ("spotify:track:".toList ++ id)) = some (.track, String.mk id) ∧
    parse (String.mk ("spotify:playlist:".toList ++ id)) = some (.playlist, String.mk id) ∧
    parse (String.mk ("spotify:album:".toList ++ id)) = some (.album, String.mk id) := by
  have mtT := matchTail_track '/' id (Or.inl rfl) hid hid2
  have mtP := matchTail_playlist '/' id (Or.inl rfl) hid hid2
  have mtA := matchTail_album '/' id (Or.inl rfl) hid hid2
  have mtT2 := matchTail_track ':' id (Or.inr rfl) hid hid2
  have mtP2 := matchTail_playlist ':' id (Or.inr rfl) hid hid2
  have mtA2 := matchTail_album ':' id (Or.inr rfl) hid hid2
  have huT : matchUser ("track".toList ++ '/' :: id) = none := rfl
  have huP : matchUser ("playlist".toList ++ '/' :: id) = none := rfl
  have huA : matchUser ("album".toList ++ '/' :: id) = none := rfl
  refine ⟨?_, ?_, ?_, ?_, ?_, ?_, ?_, ?_, ?_, ?_, ?_, ?_⟩
  · exact parseList_https_plain ("track".toList ++ '/' :: id) _ rfl rfl mtT
  · exact parseList_https_plain ("playlist".toList ++ '/' :: id) _ rfl rfl mtP
  · exact parseList_https_plain ("album".toList ++ '/' :: id) _ rfl rfl mtA
  · exact parseList_https_locale loc ("track".toList ++ '/' :: id) _ hloc hloc2 huT mtT
  · exact parseList_https_locale loc ("playlist".toList ++ '/' :: id) _ hloc hloc2 huP mtP
  · exact parseList_https_locale loc ("album".toList ++ '/' :: id) _ hloc hloc2 huA mtA
  · exact parseList_https_user name ("track".toList ++ '/' :: id) _ hnm hnm2 mtT
  · exact parseList_https_user name ("playlist".toList ++ '/' :: id) _ hnm hnm2 mtP
  · exact parseList_https_user name ("album".toList ++ '/' :: id) _ hnm hnm2 mtA
  · exact parseList_scheme ("track".toList ++ ':' :: id) _ mtT2
  · exact parseList_scheme ("playlist".toList ++ ':' :: id) _ mtP2
  · exact parseList_scheme ("album".toList ++ ':' :: id) _ mtA2

/-- Witness for C3 (amended) at id abc, locale us and user name bob. -/
theorem classify_documented_grammar_witness :
    parse (String.mk ("https://open.spotify.com/track/".toList ++ ['a', 'b', 'c'])) =
      some (.track, String.mk ['a', 'b', 'c']) ∧
    parse (String.mk ("https://open.spotify.com/playlist/".toList ++ ['a', 'b', 'c'])) =
      some (.playlist, String.mk ['a', 'b', 'c']) ∧
    parse (String.mk ("https://open.spotify.com/album/".toList ++ ['a', 'b', 'c'])) =
      some (.album, String.mk ['a', 'b', 'c']) ∧
    parse (String.mk ("https://open.spotify.com/intl-".toList ++
        (['u', 's'] ++ ("/track/".toList ++ ['a', 'b', 'c'])))) =
      some (.track, String.mk ['a', 'b', 'c']) ∧
    parse (String.mk ("https://open.spotify.com/intl-".toList ++
        (['u', 's'] ++ ("/playlist/".toList ++ ['a', 'b', 'c'])))) =
      some (.playlist, String.mk ['a', 'b', 'c']) ∧
    parse (String.mk ("https://open.spotify.com/intl-".toList ++
        (['u', 's'] ++ ("/album/".toList ++ ['a', 'b', 'c'])))) =
      some (.album, String.mk ['a', 'b', 'c']) ∧
    parse (String.mk ("https://open.spotify.com/user/".toList ++
        (['b', 'o', 'b'] ++ ("/track/".toList ++ ['a', 'b', 'c'])))) =
      some (.track, String.mk ['a', 'b', 'c']) ∧
    parse (String.mk ("https://open.spotify.com/user/".toList ++
        (['b', 'o', 'b'] ++ ("/playlist/".toList ++ ['a', 'b', 'c'])))) =
      some (.playlist, String.mk ['a', 'b', 'c']) ∧
    parse (String.mk ("https://open.spotify.com/user/".toList ++
        (['b', 'o', 'b'] ++ ("/album/".toList ++ ['a', 'b', 'c'])))) =
      some (.album, String.mk ['a', 'b', 'c']) ∧
    parse (String.mk ("spotify:track:".toList ++ ['a', 'b', 'c'])) =
      some (.track, String.mk ['a', 'b', 'c']) ∧
    parse (String.mk ("spotify:playlist:".toList ++ ['a', 'b', 'c'])) =
      some (.playlist, String.mk ['a', 'b', 'c']) ∧
    parse (String.mk ("spotify:album:".toList ++ ['a', 'b', 'c'])) =
      some (.album, String.mk ['a', 'b', 'c']) :=
  classify_documented_grammar ['a', 'b', 'c'] ['u', 's'] ['b', 'o', 'b']
    (by decide) (by decide) (by decide) (by decide) (by decide) (by decide)

end SpotifyX
